import Mathlib

/-!
Verification of `src/examples/C-code/usb_midi_host_example/usb_midi_host_example.c`.

The file embeds the state-manipulating fragments of the firmware as pure
Lean functions:

* the shared 64-byte SPI frame `out_buf` is a memory `Nat → Nat`
  (byte values; the firmware only ever stores values < 256 in it);
* the producer write path of `tuh_midi_rx_cb` (lines 296-306);
* the consumer transfer step of the `core1_entry` loop (lines 184-197);
* the clock decimator `ws_callback` (lines 131-140);
* the connection tracker `tuh_midi_mount_cb` / `tuh_midi_umount_cb`
  (lines 257-281) acting on `midi_dev_addr`;
* the note advance of `send_next_note` (lines 113-127) acting on
  `message[1]` / `message[4]`.
-/

/-- `#define SPI_BUFFER_LEN 64` (line 58). -/
def SPI_BUFFER_LEN : Nat := 64

/-- Size of the local read buffer `uint8_t buffer[48]` in `tuh_midi_rx_cb`
(line 289). -/
def rx_buffer_size : Nat := 48

/-- The body of the in-bounds branch of `tuh_midi_rx_cb` (lines 300-305):
`out_buf[2] = (uint8_t) bytes_read; memcpy(out_buf + 3, buffer, bytes_read);`.
The payload is the list of the first `bytes_read` bytes of `buffer`. -/
def writeFrame (payload : List Nat) (buf : Nat → Nat) : Nat → Nat :=
  fun i =>
    if i = 2 then payload.length % 256
    else if 3 ≤ i ∧ i < 3 + payload.length then payload.getD (i - 3) 0
    else buf i

/-- The size-checked write path of `tuh_midi_rx_cb` (lines 296-306): if
`bytes_read > SPI_BUFFER_LEN - 3` the message is reported as too long and the
write is skipped, otherwise the frame is updated under the mutex.  Returns
the new frame and the error flag (`true` = oversize error reported). -/
def rxWrite (payload : List Nat) (buf : Nat → Nat) : (Nat → Nat) × Bool :=
  if payload.length > SPI_BUFFER_LEN - 3 then (buf, true)
  else (writeFrame payload buf, false)

/-- One iteration of the `core1_entry` transfer loop (lines 184-197): under
the mutex, `spi_write_read_blocking` sends the whole `SPI_BUFFER_LEN`-byte
frame, then `out_buf[2] = 0x00`.  Returns the byte sequence put on the wire
and the frame as it is left for the next iteration. -/
def drainAndTransfer (buf : Nat → Nat) : List Nat × (Nat → Nat) :=
  ((List.range SPI_BUFFER_LEN).map buf,
   fun i => if i = 2 then 0 else buf i)

/-- The fingerprint initialisation in `core1_entry` (lines 182-183):
`out_buf[0] = 0xCA; out_buf[1] = 0xFE;`. -/
def initFingerprint (buf : Nat → Nat) : Nat → Nat :=
  fun i => if i = 0 then 0xCA else if i = 1 then 0xFE else buf i

/-- `ws_callback` (lines 131-140) acting on the static counter
`static int div = 32`: decrement, and when the counter falls to (or below)
zero reset it to 32 and release the semaphore.  Returns the new counter and
whether `sem_release` was called. -/
def wsStep (d : Int) : Int × Bool :=
  if d - 1 ≤ 0 then (32, true) else (d - 1, false)

/-- `n` invocations of `ws_callback` from the initial state (`div = 32`,
no release yet); the second component counts the `sem_release` calls. -/
def wsRun : Nat → Int × Nat
  | 0 => (32, 0)
  | n + 1 =>
    let p := wsRun n
    let q := wsStep p.1
    (q.1, if q.2 then p.2 + 1 else p.2)

/-- `tuh_midi_mount_cb` (lines 257-269) acting on `midi_dev_addr`: adopt
`dev_addr` only when no device is connected (`midi_dev_addr == 0`). -/
def tuh_midi_mount_cb (dev_addr : Nat) (midi_dev_addr : Nat) : Nat :=
  if midi_dev_addr = 0 then dev_addr else midi_dev_addr

/-- `tuh_midi_umount_cb` (lines 272-281) acting on `midi_dev_addr`: clear it
only when the unmounted address matches. -/
def tuh_midi_umount_cb (dev_addr : Nat) (midi_dev_addr : Nat) : Nat :=
  if dev_addr = midi_dev_addr then 0 else midi_dev_addr

/-- `static uint8_t first_note = 0x5b` (line 91). -/
def first_note : Nat := 0x5b

/-- `static uint8_t last_note = 0x5f` (line 92). -/
def last_note : Nat := 0x5f

/-- The two mutable note bytes of `static uint8_t message[6]`:
`message[1]` (note of the note-off part) and `message[4]` (note of the
note-on part). -/
structure NoteMsg where
  note_off : Nat
  note_on : Nat
deriving DecidableEq

/-- Initial contents of `message` (lines 93-96): note-off on 0x5f,
note-on on 0x5b. -/
def initMsg : NoteMsg := { note_off := 0x5f, note_on := 0x5b }

/-- `++b; if (b > last_note) b = first_note;` on a `uint8_t` note byte
(lines 121-126). -/
def advanceNote (b : Nat) : Nat :=
  let b1 := (b + 1) % 256
  if b1 > last_note then first_note else b1

/-- The state update of one `send_next_note` tick that reached the stream
write (lines 117-127): the note bytes advance exactly when
`nwritten != 0`. -/
def sendNextNoteStep (nwritten : Nat) (m : NoteMsg) : NoteMsg :=
  if nwritten ≠ 0 then
    { note_off := advanceNote m.note_off, note_on := advanceNote m.note_on }
  else m

/-! ## Helper lemmas -/

lemma sent_getD (buf : Nat → Nat) (k : Nat) (hk : k < SPI_BUFFER_LEN) :
    ((List.range SPI_BUFFER_LEN).map buf).getD k 0 = buf k := by
  have hk2 : k < ((List.range SPI_BUFFER_LEN).map buf).length := by
    simpa using hk
  rw [List.getD_eq_getElem _ _ hk2, List.getElem_map, List.getElem_range]

lemma writeFrame_at_two (payload : List Nat) (buf : Nat → Nat) :
    writeFrame payload buf 2 = payload.length % 256 := by
  simp [writeFrame]

lemma writeFrame_payload (payload : List Nat) (buf : Nat → Nat) (j : Nat)
    (hj : j < payload.length) :
    writeFrame payload buf (3 + j) = payload.getD j 0 := by
  have h2 : ¬ (3 + j = 2) := by omega
  have h3 : 3 ≤ 3 + j ∧ 3 + j < 3 + payload.length := by omega
  simp only [writeFrame, if_neg h2, if_pos h3]
  congr 1
  omega

lemma writeFrame_untouched (payload : List Nat) (buf : Nat → Nat) (i : Nat)
    (hi : i ≠ 2) (hlo : ¬ (3 ≤ i ∧ i < 3 + payload.length)) :
    writeFrame payload buf i = buf i := by
  simp [writeFrame, hi, hlo]

lemma rxWrite_ok (payload : List Nat) (buf : Nat → Nat)
    (h : payload.length ≤ SPI_BUFFER_LEN - 3) :
    rxWrite payload buf = (writeFrame payload buf, false) := by
  have hc : ¬ (payload.length > SPI_BUFFER_LEN - 3) := by omega
  simp [rxWrite, hc]

lemma rxWrite_oversize (payload : List Nat) (buf : Nat → Nat)
    (h : payload.length > SPI_BUFFER_LEN - 3) :
    rxWrite payload buf = (buf, true) := by
  simp [rxWrite, h]

lemma wsRun_closed (m : Nat) :
    wsRun m = ((32 : Int) - (m % 32 : Nat), m / 32) := by
  induction m with
  | zero => simp [wsRun]
  | succ m ih =>
    have hlt : m % 32 < 32 := Nat.mod_lt _ (by omega)
    rw [wsRun, ih]
    simp only [wsStep]
    by_cases h : m % 32 = 31
    · have hcond : (32 : Int) - (m % 32 : Nat) - 1 ≤ 0 := by
        rw [h]; norm_num
      rw [if_pos hcond]
      have hmod : (m + 1) % 32 = 0 := by omega
      have hdiv : (m + 1) / 32 = m / 32 + 1 := by omega
      rw [hmod, hdiv]
      norm_num
    · have hcond : ¬ ((32 : Int) - (m % 32 : Nat) - 1 ≤ 0) := by
        have hcast : (m % 32 : Int) ≤ 30 := by
          have h30 : m % 32 ≤ 30 := by omega
          exact_mod_cast h30
        omega
      rw [if_neg hcond]
      have hmod : (m + 1) % 32 = m % 32 + 1 := by omega
      have hdiv : (m + 1) / 32 = m / 32 := by omega
      rw [hmod, hdiv]
      simp only [Prod.mk.injEq]
      refine ⟨?_, rfl⟩
      push_cast
      ring

/-! ## Claims C1-C3: the shared-frame mailbox -/

/-- C1: for every payload `P` with `len(P) ≤ max_payload`
(`max_payload = SPI_BUFFER_LEN - 3 = 61`), `write(P)` (the branch of
`tuh_midi_rx_cb` that sets `out_buf[2]` and copies `P` at offset 3) followed
immediately by `drainAndTransfer` (the `core1_entry` transfer step) sends a
64-byte frame whose payload-length byte (offset 2) equals `len(P)` and whose
payload region (bytes `3 .. 3+len(P)-1`) equals `P`. -/
theorem C1_write_then_drain_sends_payload (P : List Nat) (buf : Nat → Nat)
    (hP : P.length ≤ SPI_BUFFER_LEN - 3) :
    (drainAndTransfer (rxWrite P buf).1).1.length = SPI_BUFFER_LEN ∧
    (drainAndTransfer (rxWrite P buf).1).1.getD 2 0 = P.length ∧
    ∀ j, j < P.length →
      (drainAndTransfer (rxWrite P buf).1).1.getD (3 + j) 0 = P.getD j 0 := by
  have h61 : P.length ≤ 61 := by simpa [SPI_BUFFER_LEN] using hP
  rw [rxWrite_ok P buf hP]
  simp only [drainAndTransfer]
  refine ⟨by simp, ?_, ?_⟩
  · rw [sent_getD _ 2 (by norm_num [SPI_BUFFER_LEN]), writeFrame_at_two]
    exact Nat.mod_eq_of_lt (by omega)
  · intro j hj
    have hk : 3 + j < SPI_BUFFER_LEN := by
      simp only [SPI_BUFFER_LEN]; omega
    rw [sent_getD _ (3 + j) hk, writeFrame_payload _ _ _ hj]

/-- Witness for C1 at the concrete payload `[0x90, 0x3C, 0x7F]`. -/
theorem C1_witness :
    ([0x90, 0x3C, 0x7F] : List Nat).length ≤ SPI_BUFFER_LEN - 3 ∧
    ((drainAndTransfer (rxWrite [0x90, 0x3C, 0x7F] (fun _ => 0)).1).1.length
        = SPI_BUFFER_LEN ∧
     (drainAndTransfer (rxWrite [0x90, 0x3C, 0x7F] (fun _ => 0)).1).1.getD 2 0
        = ([0x90, 0x3C, 0x7F] : List Nat).length ∧
     ∀ j, j < ([0x90, 0x3C, 0x7F] : List Nat).length →
       (drainAndTransfer (rxWrite [0x90, 0x3C, 0x7F] (fun _ => 0)).1).1.getD
           (3 + j) 0 = ([0x90, 0x3C, 0x7F] : List Nat).getD j 0) :=
  ⟨by decide,
   C1_write_then_drain_sends_payload [0x90, 0x3C, 0x7F] (fun _ => 0) (by decide)⟩

/-- C2: for every payload `P` with `len(P) > max_payload = 61`, the write
path reports an error ("Message too long"), the write is skipped, and every
byte of the shared frame is exactly what it was before the call. -/
theorem C2_oversize_write_skipped (P : List Nat) (buf : Nat → Nat)
    (hP : P.length > SPI_BUFFER_LEN - 3) :
    (rxWrite P buf).2 = true ∧ ∀ i, (rxWrite P buf).1 i = buf i := by
  rw [rxWrite_oversize P buf hP]
  exact ⟨rfl, fun _ => rfl⟩

/-- Witness for C2 at a concrete 62-byte payload. -/
theorem C2_witness :
    (List.replicate 62 (0 : Nat)).length > SPI_BUFFER_LEN - 3 ∧
    ((rxWrite (List.replicate 62 0) (fun _ => 9)).2 = true ∧
     ∀ i, (rxWrite (List.replicate 62 0) (fun _ => 9)).1 i = (fun _ => (9 : Nat)) i) :=
  ⟨by decide,
   C2_oversize_write_skipped (List.replicate 62 0) (fun _ => 9) (by decide)⟩

/-- C3: after every completed `drainAndTransfer` the payload-length byte
`out_buf[2]` equals 0, and it stays 0 under a further `drainAndTransfer` and
under a failed (oversize) write; only a successful write sets it to the new
length. -/
theorem C3_drain_resets_payload_length (buf : Nat → Nat) (P Q : List Nat)
    (hP : P.length > SPI_BUFFER_LEN - 3) (hQ : Q.length ≤ SPI_BUFFER_LEN - 3) :
    (drainAndTransfer buf).2 2 = 0 ∧
    (drainAndTransfer (drainAndTransfer buf).2).2 2 = 0 ∧
    (rxWrite P (drainAndTransfer buf).2).1 2 = 0 ∧
    (rxWrite Q (drainAndTransfer buf).2).1 2 = Q.length := by
  have h1 : (drainAndTransfer buf).2 2 = 0 := by simp [drainAndTransfer]
  refine ⟨h1, by simp [drainAndTransfer], ?_, ?_⟩
  · rw [rxWrite_oversize _ _ hP]
    exact h1
  · rw [rxWrite_ok _ _ hQ]
    show writeFrame Q (drainAndTransfer buf).2 2 = Q.length
    rw [writeFrame_at_two]
    have h61 : Q.length ≤ 61 := by simpa [SPI_BUFFER_LEN] using hQ
    exact Nat.mod_eq_of_lt (by omega)

/-- Witness for C3 at a concrete frame, an oversize payload and a 2-byte
payload. -/
theorem C3_witness :
    (List.replicate 62 (0 : Nat)).length > SPI_BUFFER_LEN - 3 ∧
    ([0xB0, 0x07] : List Nat).length ≤ SPI_BUFFER_LEN - 3 ∧
    ((drainAndTransfer (fun _ => 7)).2 2 = 0 ∧
     (drainAndTransfer (drainAndTransfer (fun _ => 7)).2).2 2 = 0 ∧
     (rxWrite (List.replicate 62 0) (drainAndTransfer (fun _ => 7)).2).1 2 = 0 ∧
     (rxWrite [0xB0, 0x07] (drainAndTransfer (fun _ => 7)).2).1 2
        = ([0xB0, 0x07] : List Nat).length) :=
  ⟨by decide, by decide,
   C3_drain_resets_payload_length (fun _ => 7) (List.replicate 62 0) [0xB0, 0x07]
     (by decide) (by decide)⟩

/-! ## Claim C4: the clock decimator -/

/-- C4: from the initial state (`div = 32`), after exactly `32*n` calls to
`ws_callback` exactly `n` releases have been emitted; any number of calls
strictly between consecutive multiples of 32 emits no further release; the
counter stays within `[0, 32]`; and whenever a call emits a release the
counter is reset to the divisor 32. -/
theorem C4_clock_decimator (n k : Nat) (d : Int)
    (hk : 0 < k ∧ k < 32) (hd : (wsStep d).2 = true) :
    (wsRun (32 * n)).2 = n ∧
    (wsRun (32 * n)).1 = 32 ∧
    (wsRun (32 * n + k)).2 = n ∧
    (0 ≤ (wsRun (32 * n + k)).1 ∧ (wsRun (32 * n + k)).1 ≤ 32) ∧
    (wsStep d).1 = 32 := by
  have h1 := wsRun_closed (32 * n)
  have h2 := wsRun_closed (32 * n + k)
  have hm1 : (32 * n) % 32 = 0 := by omega
  have hq1 : (32 * n) / 32 = n := by omega
  have hm2 : (32 * n + k) % 32 = k := by omega
  have hq2 : (32 * n + k) / 32 = n := by omega
  rw [hm1, hq1] at h1
  rw [hm2, hq2] at h2
  refine ⟨by rw [h1], by rw [h1]; norm_num, by rw [h2], ?_, ?_⟩
  · rw [h2]
    have hkle : (k : Int) ≤ 31 := by exact_mod_cast (by omega : k ≤ 31)
    have hkge : (0 : Int) ≤ (k : Int) := by positivity
    constructor <;> simp only [] <;> omega
  · unfold wsStep at hd ⊢
    by_cases hc : d - 1 ≤ 0
    · rw [if_pos hc]
    · rw [if_neg hc] at hd
      simp at hd

/-- Witness for C4 at `n = 2`, `k = 5`, `d = 1`. -/
theorem C4_witness :
    ((0 < 5 ∧ 5 < 32) ∧ (wsStep 1).2 = true) ∧
    ((wsRun (32 * 2)).2 = 2 ∧
     (wsRun (32 * 2)).1 = 32 ∧
     (wsRun (32 * 2 + 5)).2 = 2 ∧
     (0 ≤ (wsRun (32 * 2 + 5)).1 ∧ (wsRun (32 * 2 + 5)).1 ≤ 32) ∧
     (wsStep 1).1 = 32) :=
  ⟨⟨by decide, by decide⟩, C4_clock_decimator 2 5 1 (by decide) (by decide)⟩

/-! ## Claim C5: the connection tracker -/

/-- C5: starting with no active connection (`midi_dev_addr = 0`), mounting
device `A` (a real, nonzero address) makes `A` active; a second mount `B`
while `A` is active leaves `A` active; unmounting `A` clears the active
connection; a subsequent mount `B` makes `B` active. -/
theorem C5_connection_tracker (A B : Nat) (hA : A ≠ 0) :
    tuh_midi_mount_cb A 0 = A ∧
    tuh_midi_mount_cb B (tuh_midi_mount_cb A 0) = A ∧
    tuh_midi_umount_cb A (tuh_midi_mount_cb A 0) = 0 ∧
    tuh_midi_mount_cb B (tuh_midi_umount_cb A (tuh_midi_mount_cb A 0)) = B := by
  simp [tuh_midi_mount_cb, tuh_midi_umount_cb, hA]

/-- Witness for C5 at `A = 1`, `B = 2`. -/
theorem C5_witness :
    (1 : Nat) ≠ 0 ∧
    (tuh_midi_mount_cb 1 0 = 1 ∧
     tuh_midi_mount_cb 2 (tuh_midi_mount_cb 1 0) = 1 ∧
     tuh_midi_umount_cb 1 (tuh_midi_mount_cb 1 0) = 0 ∧
     tuh_midi_mount_cb 2 (tuh_midi_umount_cb 1 (tuh_midi_mount_cb 1 0)) = 2) :=
  ⟨by decide, C5_connection_tracker 1 2 (by decide)⟩

/-! ## Claims C6-C7: the note sequencer -/

/-- C6: starting from `message[4] = 0x5b` with range `[0x5b, 0x5f]`, five
consecutive ticks whose stream write returns nonzero advance the note-on
byte through 0x5c, 0x5d, 0x5e, 0x5f and back to 0x5b on the fifth tick
(wrapping to `first_note` when the incremented value exceeds
`last_note`). -/
theorem C6_note_sequence_wraps (n1 n2 n3 n4 n5 : Nat)
    (h1 : n1 ≠ 0) (h2 : n2 ≠ 0) (h3 : n3 ≠ 0) (h4 : n4 ≠ 0) (h5 : n5 ≠ 0) :
    initMsg.note_on = 0x5b ∧
    (sendNextNoteStep n1 initMsg).note_on = 0x5c ∧
    (sendNextNoteStep n2 (sendNextNoteStep n1 initMsg)).note_on = 0x5d ∧
    (sendNextNoteStep n3 (sendNextNoteStep n2
        (sendNextNoteStep n1 initMsg))).note_on = 0x5e ∧
    (sendNextNoteStep n4 (sendNextNoteStep n3 (sendNextNoteStep n2
        (sendNextNoteStep n1 initMsg)))).note_on = 0x5f ∧
    (sendNextNoteStep n5 (sendNextNoteStep n4 (sendNextNoteStep n3
        (sendNextNoteStep n2 (sendNextNoteStep n1 initMsg))))).note_on
      = 0x5b := by
  simp only [sendNextNoteStep, if_pos h1, if_pos h2, if_pos h3, if_pos h4,
    if_pos h5]
  refine ⟨rfl, ?_, ?_, ?_, ?_, ?_⟩ <;> decide

/-- Witness for C6 with every tick writing 1 byte. -/
theorem C6_witness :
    ((1 : Nat) ≠ 0) ∧
    (initMsg.note_on = 0x5b ∧
     (sendNextNoteStep 1 initMsg).note_on = 0x5c ∧
     (sendNextNoteStep 1 (sendNextNoteStep 1 initMsg)).note_on = 0x5d ∧
     (sendNextNoteStep 1 (sendNextNoteStep 1
         (sendNextNoteStep 1 initMsg))).note_on = 0x5e ∧
     (sendNextNoteStep 1 (sendNextNoteStep 1 (sendNextNoteStep 1
         (sendNextNoteStep 1 initMsg)))).note_on = 0x5f ∧
     (sendNextNoteStep 1 (sendNextNoteStep 1 (sendNextNoteStep 1
         (sendNextNoteStep 1 (sendNextNoteStep 1 initMsg))))).note_on
       = 0x5b) :=
  ⟨by decide,
   C6_note_sequence_wraps 1 1 1 1 1 (by decide) (by decide) (by decide)
     (by decide) (by decide)⟩

/-- C7: a tick in which the stream write returns 0 bytes leaves both note
bytes of the message pair unchanged — the sequencer state is preserved and
the same note is retried on the next tick. -/
theorem C7_zero_write_preserves_notes (m : NoteMsg) :
    sendNextNoteStep 0 m = m := by
  simp [sendNextNoteStep]

/-! ## Claim C8: last-write-wins on the mailbox slot -/

/-- The shared frame just after fingerprint initialisation of an all-zero
buffer: the state of `out_buf` when the `core1_entry` loop starts. -/
def zeroFrame : Nat → Nat := initFingerprint (fun _ => 0)

lemma writeFrame_prefix_eq (P1 P2 : List Nat) (buf : Nat → Nat) (i : Nat)
    (hi : i < 3 + P2.length) :
    writeFrame P2 (writeFrame P1 buf) i = writeFrame P2 buf i := by
  by_cases h2 : i = 2
  · subst h2
    rw [writeFrame_at_two, writeFrame_at_two]
  · by_cases h3 : 3 ≤ i ∧ i < 3 + P2.length
    · simp only [writeFrame, if_neg h2, if_pos h3]
    · have hn1 : ¬ (3 ≤ i ∧ i < 3 + P1.length) := by omega
      rw [writeFrame_untouched P2 (writeFrame P1 buf) i h2 h3,
          writeFrame_untouched P2 buf i h2 h3,
          writeFrame_untouched P1 buf i h2 hn1]

/-- C8 counterexample: with the frame fresh from initialisation,
`write([1,2])` then `write([3])` does NOT leave the frame in exactly the
state `write([3])` alone would produce: byte 4 holds the residue 2 of the
first payload instead of 0. -/
theorem C8_counterexample :
    (rxWrite [3] (rxWrite [1, 2] zeroFrame).1).1 4 = 2 ∧
    (rxWrite [3] zeroFrame).1 4 = 0 ∧
    (rxWrite [3] (rxWrite [1, 2] zeroFrame).1).1 4
      ≠ (rxWrite [3] zeroFrame).1 4 := by
  refine ⟨by decide, by decide, by decide⟩

/-- C8 amended: `write(P1)` then `write(P2)` (both of valid size, no
intervening transfer) leaves `payload_length = len(P2)`, the payload region
beginning with `P2`, and agrees with the state `write(P2)` alone would
produce on every byte up to offset `3 + len(P2) - 1` (fingerprint,
payload-length byte and the full new payload); `P1` survives only as inert
residue beyond the new payload. -/
theorem C8_last_write_wins (P1 P2 : List Nat) (buf : Nat → Nat)
    (h1 : P1.length ≤ SPI_BUFFER_LEN - 3) (h2 : P2.length ≤ SPI_BUFFER_LEN - 3) :
    (rxWrite P2 (rxWrite P1 buf).1).1 2 = P2.length ∧
    (∀ j, j < P2.length →
      (rxWrite P2 (rxWrite P1 buf).1).1 (3 + j) = P2.getD j 0) ∧
    (∀ i, i < 3 + P2.length →
      (rxWrite P2 (rxWrite P1 buf).1).1 i = (rxWrite P2 buf).1 i) := by
  simp only [rxWrite_ok P1 buf h1]
  simp only [rxWrite_ok P2 (writeFrame P1 buf) h2, rxWrite_ok P2 buf h2]
  refine ⟨?_, ?_, ?_⟩
  · show writeFrame P2 (writeFrame P1 buf) 2 = P2.length
    rw [writeFrame_at_two]
    have h61 : P2.length ≤ 61 := by simpa [SPI_BUFFER_LEN] using h2
    exact Nat.mod_eq_of_lt (by omega)
  · intro j hj
    exact writeFrame_payload _ _ _ hj
  · intro i hi
    exact writeFrame_prefix_eq P1 P2 buf i hi

/-- Witness for C8 at `P1 = [1, 2]`, `P2 = [3]` on the freshly initialised
frame. -/
theorem C8_witness :
    ([1, 2] : List Nat).length ≤ SPI_BUFFER_LEN - 3 ∧
    ([3] : List Nat).length ≤ SPI_BUFFER_LEN - 3 ∧
    ((rxWrite [3] (rxWrite [1, 2] zeroFrame).1).1 2 = ([3] : List Nat).length ∧
     (∀ j, j < ([3] : List Nat).length →
       (rxWrite [3] (rxWrite [1, 2] zeroFrame).1).1 (3 + j)
         = ([3] : List Nat).getD j 0) ∧
     (∀ i, i < 3 + ([3] : List Nat).length →
       (rxWrite [3] (rxWrite [1, 2] zeroFrame).1).1 i
         = (rxWrite [3] zeroFrame).1 i)) :=
  ⟨by decide, by decide,
   C8_last_write_wins [1, 2] [3] zeroFrame (by decide) (by decide)⟩

/-! ## Claim C9: the fingerprint bytes are invariant -/

/-- C9: initialisation sets `out_buf[0] = 0xCA` and `out_buf[1] = 0xFE`, and
neither the write path of `tuh_midi_rx_cb` (which touches only offset 2 and
the payload region from offset 3) nor the transfer step (which clears only
offset 2) ever modifies these two bytes. -/
theorem C9_fingerprint_invariant (buf b : Nat → Nat) (P : List Nat) :
    initFingerprint buf 0 = 0xCA ∧ initFingerprint buf 1 = 0xFE ∧
    (rxWrite P b).1 0 = b 0 ∧ (rxWrite P b).1 1 = b 1 ∧
    (drainAndTransfer b).2 0 = b 0 ∧ (drainAndTransfer b).2 1 = b 1 := by
  refine ⟨rfl, rfl, ?_, ?_, by simp [drainAndTransfer], by simp [drainAndTransfer]⟩
  · unfold rxWrite
    split
    · rfl
    · exact writeFrame_untouched P b 0 (by omega) (by omega)
  · unfold rxWrite
    split
    · rfl
    · exact writeFrame_untouched P b 1 (by omega) (by omega)

/-! ## Claim C10: the inbound read buffer keeps the write in bounds -/

/-- C10: the read buffer of `tuh_midi_rx_cb` holds `rx_buffer_size = 48`
bytes, so any `bytes_read ≤ 48` makes the oversize branch unreachable
(`48 < 61 = SPI_BUFFER_LEN - 3`), the write succeeds, the payload-length
byte lands in `[0, 48]`, and every byte the write modifies lies at an
offset in `[2, SPI_BUFFER_LEN)`, inside the 64-byte `out_buf`. -/
theorem C10_inbound_write_in_bounds (P : List Nat) (buf : Nat → Nat)
    (h : P.length ≤ rx_buffer_size) :
    ¬ (P.length > SPI_BUFFER_LEN - 3) ∧
    (rxWrite P buf).2 = false ∧
    (rxWrite P buf).1 2 = P.length ∧
    (rxWrite P buf).1 2 ≤ rx_buffer_size ∧
    ∀ i, (rxWrite P buf).1 i ≠ buf i → 2 ≤ i ∧ i < SPI_BUFFER_LEN := by
  have h48 : P.length ≤ 48 := by simpa [rx_buffer_size] using h
  have hok : P.length ≤ SPI_BUFFER_LEN - 3 := by
    simp only [SPI_BUFFER_LEN]; omega
  have hat2 : (rxWrite P buf).1 2 = P.length := by
    rw [rxWrite_ok _ _ hok]
    show writeFrame P buf 2 = P.length
    rw [writeFrame_at_two]
    exact Nat.mod_eq_of_lt (by omega)
  refine ⟨by simp only [SPI_BUFFER_LEN]; omega,
          by rw [rxWrite_ok _ _ hok], hat2,
          by rw [hat2]; simpa [rx_buffer_size] using h48, ?_⟩
  intro i hne
  rw [rxWrite_ok _ _ hok] at hne
  simp only [SPI_BUFFER_LEN]
  by_contra hcon
  rw [not_and_or] at hcon
  have hout : i < 2 ∨ 64 ≤ i := by omega
  have hunt : writeFrame P buf i = buf i :=
    writeFrame_untouched P buf i (by omega) (by omega)
  exact hne hunt

/-- Witness for C10 at the one-byte payload `[5]`. -/
theorem C10_witness :
    ([5] : List Nat).length ≤ rx_buffer_size ∧
    (¬ (([5] : List Nat).length > SPI_BUFFER_LEN - 3) ∧
     (rxWrite [5] zeroFrame).2 = false ∧
     (rxWrite [5] zeroFrame).1 2 = ([5] : List Nat).length ∧
     (rxWrite [5] zeroFrame).1 2 ≤ rx_buffer_size ∧
     ∀ i, (rxWrite [5] zeroFrame).1 i ≠ zeroFrame i →
       2 ≤ i ∧ i < SPI_BUFFER_LEN) :=
  ⟨by decide, C10_inbound_write_in_bounds [5] zeroFrame (by decide)⟩
